import Mathlib

/-!
Shallow embedding of the vertical-equilibrium (VE) extension of the
regularized Brooks-Corey material law family (hafriis/opm-material) and of
the SimpleCO2 component correlations, together with theorems settling the
specification claims.

Scalars (`double` in the C++ source) are modelled as rationals `ℚ`: every
arithmetic expression in the relevant code is a field expression, and `ℚ`
keeps all definitions executable and decidable on concrete inputs.  As in
Lean's field conventions, `x / 0 = 0`; every division in the embedded code
is guarded by positivity hypotheses where a claim needs it.

Two pieces of this repository are not under the sources available here and
are modelled from the specification where a claim needs them, each marked
`Modelled from the spec:` at its definition:
 * `EnsureFinalized` (opm/material/common/EnsureFinalized.hpp): a boolean
   `finalized` flag, set only by a finalize step, with `check()` signalling
   a fatal contract violation while the flag is false;
 * the plain (non-VE) `RegularizedBrooksCorey` law and its parameter base
   class, which the spec declares an external collaborator ("consumed, not
   re-specified"): they are kept abstract (an arbitrary `PlainLaw`).

A further modelling note, load-bearing for claims about the two VE law
operations: in `RegularizedBrooksCoreyVE.hpp` the calls
`params.compute_h_FromSandSmax(S, Smax)`,
`params.compute_hmax_FromSandSmax(S, Smax)`,
`params.computeWettingPhaseRelPerm(h, hmax, viscosity_w)` and
`params.computeNonWettingPhaseRelPerm(h, hmax)` omit the trailing
column-height argument `H` that the corresponding member functions of
`RegularizedBrooksCoreyParamsVE` require, so instantiating these templates
is a compile error.  The embedding threads an explicit `H` through the two
operations, exactly as the spec's formulas require, and the affected claims
record this divergence.
-/

namespace Opm

/-- Phase-index traits of the two-phase material law (`TraitsT` in the
source): the integer indices of the wetting and the non-wetting phase. -/
structure Traits where
  wettingPhaseIdx : ℤ
  nonWettingPhaseIdx : ℤ

/-- Contract violation signalled by `EnsureFinalized::check()` when a
finalize-gated accessor is read before finalization. -/
inductive ContractViolation where
  | notFinalized : ContractViolation
deriving DecidableEq, Repr

/-- Parameter object `RegularizedBrooksCoreyParamsVE` (with the fields of
its base classes).  `entryPressure` and `lambda` live in the base
`BrooksCoreyParams`; `finalized` is the flag of `EnsureFinalized`.
Modelled from the spec: the base-class fields and the `finalized` flag
(the base headers are external collaborators, not in this repository's
sources); the four VE fields `srw_`, `srn_`, `krnEndPoint_`,
`krwEndPoint_` are from the source. -/
structure Params where
  entryPressure : ℚ
  lambda : ℚ
  srw : ℚ
  srn : ℚ
  krnEndPoint_ : ℚ
  krwEndPoint_ : ℚ
  finalized : Bool
deriving DecidableEq, Repr

namespace Params

/-- Default constructor `RegularizedBrooksCoreyParamsVE()`: residual
saturations 0, endpoint relative permeabilities 0.01, not finalized.  The
base default constructor's `entryPressure`/`lambda` values are external;
they are taken as arguments here. -/
def mkDefault (pe lambda0 : ℚ) : Params :=
  { entryPressure := pe
    lambda := lambda0
    srw := 0
    srn := 0
    krnEndPoint_ := 0.01
    krwEndPoint_ := 0.01
    finalized := false }

/-- VE `finalize()`: the body in the source is empty, so it neither calls
the base finalize nor touches the `finalized` flag. -/
def finalize (p : Params) : Params := p

/-- `finalizePlain()` calls `RegularizedBrooksCoreyParams::finalize()`.
Modelled from the spec: the base finalize recomputes cached regularization
spline coefficients (not represented here, no claim depends on them) and
sets the `finalized` flag of `EnsureFinalized`. -/
def finalizePlain (p : Params) : Params := { p with finalized := true }

/-- EnsureFinalized::check, shared by the gated getters.  Modelled from the
spec: every gated accessor fails with a contract violation if read while
`finalized` is false, and returns its value otherwise. -/
def checked (p : Params) (v : ℚ) : Except ContractViolation ℚ :=
  if p.finalized then Except.ok v else Except.error ContractViolation.notFinalized

/-- Getter `krnEndPoint()`: `EnsureFinalized::check(); return krnEndPoint_;`. -/
def krnEndPoint (p : Params) : Except ContractViolation ℚ :=
  p.checked p.krnEndPoint_

/-- Getter `krwEndPoint()`: `EnsureFinalized::check(); return krwEndPoint_;`. -/
def krwEndPoint (p : Params) : Except ContractViolation ℚ :=
  p.checked p.krwEndPoint_

/-- Inherited getter for the entry pressure.  Modelled from the spec: the
base-class accessors are finalize-gated in the same way. -/
def entryPressureGet (p : Params) : Except ContractViolation ℚ :=
  p.checked p.entryPressure

/-- Inherited getter for the pore-size distribution index lambda.  Modelled
from the spec: the base-class accessors are finalize-gated in the same way. -/
def lambdaGet (p : Params) : Except ContractViolation ℚ :=
  p.checked p.lambda

/-- Setter `setKrnEndPoint(value)`. -/
def setKrnEndPoint (p : Params) (value : ℚ) : Params :=
  { p with krnEndPoint_ := value }

/-- Setter `setKrwEndPoint(value)`. -/
def setKrwEndPoint (p : Params) (value : ℚ) : Params :=
  { p with krwEndPoint_ := value }

/-- `setResidualSaturation(phaseIdx, value)`: writes `srw_` for the wetting
index, `srn_` for the non-wetting index and nothing otherwise; no
finalized check. -/
def setResidualSaturation (tr : Traits) (p : Params) (phaseIdx : ℤ) (value : ℚ) :
    Params :=
  if phaseIdx = tr.wettingPhaseIdx then { p with srw := value }
  else if phaseIdx = tr.nonWettingPhaseIdx then { p with srn := value }
  else p

/-- `getResidualSaturation(phaseIdx)`: `ret` is initialized to 0.0 and only
overwritten for the wetting or non-wetting index; no finalized check. -/
def getResidualSaturation (tr : Traits) (p : Params) (phaseIdx : ℤ) : ℚ :=
  if phaseIdx = tr.wettingPhaseIdx then p.srw
  else if phaseIdx = tr.nonWettingPhaseIdx then p.srn
  else 0

/-- Height of the non-wetting phase column segment,
`compute_h_FromSandSmax(S, Smax, H)`:
`(H*(S*(1.0-srw_)-Smax*srn_))/((1.0-srw_)*(1.0-srw_-srn_))`. -/
def compute_h_FromSandSmax (p : Params) (S Smax H : ℚ) : ℚ :=
  (H * (S * (1 - p.srw) - Smax * p.srn)) / ((1 - p.srw) * (1 - p.srw - p.srn))

/-- Historical maximum height, `compute_hmax_FromSandSmax(S, Smax, H)`:
`(H*Smax)/(1.0-srw_)` (the `S` argument is unused in the source). -/
def compute_hmax_FromSandSmax (p : Params) (S Smax H : ℚ) : ℚ :=
  (H * Smax) / (1 - p.srw)

/-- `computeNonWettingPhaseRelPerm(h, hmax, H)`: `krnEndPoint_*(h/H)`
(the `hmax` argument is unused in the source). -/
def computeNonWettingPhaseRelPerm (p : Params) (h hmax H : ℚ) : ℚ :=
  p.krnEndPoint_ * (h / H)

/-- `computeWettingPhaseRelPerm(h, hmax, H, viscosity_w)`:
`(((H - hmax)/H) + (viscosity_w*krwEndPoint_)*((hmax-h)/H))`. -/
def computeWettingPhaseRelPerm (p : Params) (h hmax H viscosity_w : ℚ) : ℚ :=
  ((H - hmax) / H) + (viscosity_w * p.krwEndPoint_) * ((hmax - h) / H)

end Params

/-- Fluid-state view (external collaborator): per-phase saturation, density
and viscosity, plus the historical maximum non-wetting saturation
`getSmax()`. -/
structure FluidState where
  saturation : ℤ → ℚ
  density : ℤ → ℚ
  viscosity : ℤ → ℚ
  getSmax : ℚ

/-- Caller-provided output container, random access by phase index. -/
def Container : Type := ℤ → ℚ

/-- The plain (non-VE) `RegularizedBrooksCorey` law that the VE law
delegates to.  Modelled from the spec: an external baseline, consumed and
not re-specified, so its two operations are kept fully abstract; each maps
the parameter object, the fluid state and the incoming container to the
container after the operation's writes. -/
structure PlainLaw where
  capillaryPressures : Params → FluidState → Container → Container
  saturations : Params → FluidState → Container → Container

namespace RegularizedBrooksCoreyVE

/-- VE `capillaryPressures(values, params, fs)`: first the plain-law
baseline is computed (a placeholder for a future fine-scale capillary
correction), then the wetting entry is overwritten with 0 and the
non-wetting entry with `(density_w - density_n)*g*h`, `g = 9.80665`.  The
source calls `compute_h_FromSandSmax(S, Smax)` without the required third
argument `H` (an instantiation-time compile error); the embedding threads
`H` explicitly, as the spec's formulas require. -/
def capillaryPressures (tr : Traits) (plain : PlainLaw) (H : ℚ)
    (values : Container) (params : Params) (fs : FluidState) : Container :=
  let values0 := plain.capillaryPressures params fs values
  let density_n := fs.density tr.nonWettingPhaseIdx
  let density_w := fs.density tr.wettingPhaseIdx
  let g : ℚ := 9.80665
  let S := fs.saturation tr.nonWettingPhaseIdx
  let Smax := fs.getSmax
  let h := params.compute_h_FromSandSmax S Smax H
  let values1 : Container :=
    fun i => if i = tr.wettingPhaseIdx then 0 else values0 i
  fun i =>
    if i = tr.nonWettingPhaseIdx then (density_w - density_n) * g * h
    else values1 i

/-- VE `saturations(values, params, fs)`: delegates unconditionally to
`RegularizedBrooksCorey::saturations`. -/
def saturations (tr : Traits) (plain : PlainLaw)
    (values : Container) (params : Params) (fs : FluidState) : Container :=
  plain.saturations params fs values

/-- VE `relativePermeabilities(values, params, fs)`: writes
`computeWettingPhaseRelPerm` into the wetting entry and
`computeNonWettingPhaseRelPerm` into the non-wetting entry, from `h`,
`hmax` and the wetting-phase viscosity.  The source calls all four helper
member functions without the required column-height argument `H` (an
instantiation-time compile error); the embedding threads `H` explicitly,
as the spec's formulas require. -/
def relativePermeabilities (tr : Traits) (H : ℚ)
    (values : Container) (params : Params) (fs : FluidState) : Container :=
  let S := fs.saturation tr.nonWettingPhaseIdx
  let Smax := fs.getSmax
  let h := params.compute_h_FromSandSmax S Smax H
  let hmax := params.compute_hmax_FromSandSmax S Smax H
  let viscosity_w := fs.viscosity tr.wettingPhaseIdx
  let values1 : Container :=
    fun i =>
      if i = tr.wettingPhaseIdx then
        params.computeWettingPhaseRelPerm h hmax H viscosity_w
      else values i
  fun i =>
    if i = tr.nonWettingPhaseIdx then
      params.computeNonWettingPhaseRelPerm h hmax H
    else values1 i

end RegularizedBrooksCoreyVE

end Opm

namespace Dumux

namespace SimpleCO2

/-- Molar mass of CO2, 44e-3 kg/mol. -/
def molarMass : ℚ := 44e-3

/-- `vaporPressure(T)`: `DUNE_THROW(Dune::NotImplemented, ...)`. -/
def vaporPressure (T : ℚ) : Except String ℚ :=
  Except.error "NotImplemented: vaporPressure of simple CO2"

/-- `gasEnthalpy(temperature, pressure)`:
`571.3e3 + (temperature - 298.15)*0.85e3`. -/
def gasEnthalpy (temperature pressure : ℚ) : Except String ℚ :=
  Except.ok (571.3e3 + (temperature - 298.15) * 0.85e3)

/-- `liquidEnthalpy(temperature, pressure)`: `(temperature - 298.15)*5e3`. -/
def liquidEnthalpy (temperature pressure : ℚ) : Except String ℚ :=
  Except.ok ((temperature - 298.15) * 5e3)

/-- `liquidInternalEnergy(temperature, pressure)`:
`DUNE_THROW(Dune::NotImplemented, ...)`. -/
def liquidInternalEnergy (temperature pressure : ℚ) : Except String ℚ :=
  Except.error "NotImplemented: liquidInternalEnergy of simple CO2"

/-- `liquidDensity(temperature, pressure)`:
`DUNE_THROW(Dune::NotImplemented, ...)`. -/
def liquidDensity (temperature pressure : ℚ) : Except String ℚ :=
  Except.error "NotImplemented: liquidDensity of simple CO2"

/-- `liquidPressure(temperature, density)`:
`DUNE_THROW(Dune::NotImplemented, ...)`. -/
def liquidPressure (temperature density : ℚ) : Except String ℚ :=
  Except.error "NotImplemented: liquidPressure for simple CO2"

/-- `liquidViscosity(temperature, pressure)`:
`DUNE_THROW(Dune::NotImplemented, ...)`. -/
def liquidViscosity (temperature pressure : ℚ) : Except String ℚ :=
  Except.error "NotImplemented: liquidViscosity of simple CO2"

end SimpleCO2

end Dumux

open Opm Dumux

section BasicFacts

/-- Sanity check of the embedding against the spec's concrete scenario:
`Srw=0.1, Srn=0.05, H=10, S=0.5, Smax=0.6` gives `h = 4200/765 ≈ 5.490`. -/
theorem compute_h_spec_scenario :
    Opm.Params.compute_h_FromSandSmax
      { Opm.Params.mkDefault 1 2 with srw := 1/10, srn := 1/20 }
      (1/2) (3/5) 10 = 4200 / 765 := by
  norm_num [Opm.Params.compute_h_FromSandSmax, Opm.Params.mkDefault]

/-- Sanity check: same scenario, `hmax = 10·0.6/0.9 = 60/9`. -/
theorem compute_hmax_spec_scenario :
    Opm.Params.compute_hmax_FromSandSmax
      { Opm.Params.mkDefault 1 2 with srw := 1/10, srn := 1/20 }
      (1/2) (3/5) 10 = 60 / 9 := by
  norm_num [Opm.Params.compute_hmax_FromSandSmax, Opm.Params.mkDefault]

end BasicFacts

section SampleObjects

/-- Standard two-phase traits: wetting index 0, non-wetting index 1. -/
def tr01 : Opm.Traits := ⟨0, 1⟩

/-- A plain law that leaves the container unchanged; the VE theorems hold
for every plain law, this one instantiates witnesses. -/
def idPlain : Opm.PlainLaw := ⟨fun _ _ v => v, fun _ _ v => v⟩

/-- All-zero output container. -/
def zeroContainer : Opm.Container := fun _ => 0

/-- Finalized sample parameters from the spec's concrete scenario
(`Srw = 0.1`, `Srn = 0.05`). -/
def sampleParams : Opm.Params :=
  { Opm.Params.mkDefault 1 1 with srw := 1/10, srn := 1/20, finalized := true }

/-- Sample fluid state: water density 1000, CO2 density 700, unit
viscosities, `S = 0.5`, `Smax = 0.6`. -/
def sampleFluidState : Opm.FluidState :=
  { saturation := fun _ => 1/2
    density := fun i => if i = 0 then 1000 else 700
    viscosity := fun _ => 1
    getSmax := 3/5 }

end SampleObjects

section ClaimC5

/-- C5: for every parameter object with `krnEndPoint` in `(0,1]` and every
fixed column height `H > 0` (and any `hmax`), `computeNonWettingPhaseRelPerm`
is monotonically non-decreasing in `h`, vanishes at `h = 0` and equals
`krnEndPoint` at `h = H`. -/
theorem C5_krn_monotone_and_endpoints (p : Opm.Params) (hmax H : ℚ)
    (hk0 : 0 < p.krnEndPoint_) (hk1 : p.krnEndPoint_ ≤ 1) (hH : 0 < H) :
    (∀ h1 h2 : ℚ, h1 ≤ h2 →
        p.computeNonWettingPhaseRelPerm h1 hmax H ≤
          p.computeNonWettingPhaseRelPerm h2 hmax H) ∧
    p.computeNonWettingPhaseRelPerm 0 hmax H = 0 ∧
    p.computeNonWettingPhaseRelPerm H hmax H = p.krnEndPoint_ := by
  unfold Opm.Params.computeNonWettingPhaseRelPerm
  refine ⟨fun h1 h2 h12 => ?_, by ring, ?_⟩
  · have hdiv : h1 / H ≤ h2 / H := by gcongr
    exact mul_le_mul_of_nonneg_left hdiv (le_of_lt hk0)
  · rw [div_self (ne_of_gt hH), mul_one]

/-- Witness for C5 at `krnEndPoint = 1/100` (the constructor default),
`hmax = 2`, `H = 10`. -/
theorem C5_witness :
    (∀ h1 h2 : ℚ, h1 ≤ h2 →
        (Opm.Params.mkDefault 1 2).computeNonWettingPhaseRelPerm h1 2 10 ≤
          (Opm.Params.mkDefault 1 2).computeNonWettingPhaseRelPerm h2 2 10) ∧
    (Opm.Params.mkDefault 1 2).computeNonWettingPhaseRelPerm 0 2 10 = 0 ∧
    (Opm.Params.mkDefault 1 2).computeNonWettingPhaseRelPerm 10 2 10 =
      (Opm.Params.mkDefault 1 2).krnEndPoint_ :=
  C5_krn_monotone_and_endpoints (Opm.Params.mkDefault 1 2) 2 10
    (by norm_num [Opm.Params.mkDefault]) (by norm_num [Opm.Params.mkDefault])
    (by norm_num)

end ClaimC5

section ClaimC6

/-- C6: for every parameter object, every column height `H > 0` and every
wetting-phase viscosity, a fully wetting-saturated column
(`h = 0`, `hmax = 0`) yields unit wetting relative permeability. -/
theorem C6_krw_full_wetting (p : Opm.Params) (H mu_w : ℚ) (hH : 0 < H) :
    p.computeWettingPhaseRelPerm 0 0 H mu_w = 1 := by
  unfold Opm.Params.computeWettingPhaseRelPerm
  have hne : H ≠ 0 := ne_of_gt hH
  field_simp

/-- Witness for C6 at the constructor-default parameters, `H = 10`,
`mu_w = 3`. -/
theorem C6_witness :
    (Opm.Params.mkDefault 1 2).computeWettingPhaseRelPerm 0 0 10 3 = 1 :=
  C6_krw_full_wetting (Opm.Params.mkDefault 1 2) 10 3 (by norm_num)

end ClaimC6

section ClaimC7

/-- C7: when the current saturation equals the historical maximum there is
no hysteresis gap: `compute_h_FromSandSmax(Smax, Smax, H)` equals
`compute_hmax_FromSandSmax(Smax, Smax, H)`, for every parameter object with
`Srw + Srn < 1` and `Srw < 1`. -/
theorem C7_no_hysteresis_gap (p : Opm.Params) (Smax H : ℚ)
    (hsum : p.srw + p.srn < 1) (hw : p.srw < 1) :
    p.compute_h_FromSandSmax Smax Smax H =
      p.compute_hmax_FromSandSmax Smax Smax H := by
  unfold Opm.Params.compute_h_FromSandSmax Opm.Params.compute_hmax_FromSandSmax
  have h1 : (1 : ℚ) - p.srw ≠ 0 := by linarith
  have h2 : (1 : ℚ) - p.srw - p.srn ≠ 0 := by
    have : p.srw + p.srn < 1 := hsum
    intro h
    nlinarith
  field_simp
  ring

/-- Witness for C7: `Srw = 1/10`, `Srn = 1/20`, `Smax = 3/5`, `H = 10`. -/
theorem C7_witness :
    ({ Opm.Params.mkDefault 1 2 with
        srw := 1/10, srn := 1/20 } : Opm.Params).compute_h_FromSandSmax
        (3/5) (3/5) 10 =
      ({ Opm.Params.mkDefault 1 2 with
          srw := 1/10, srn := 1/20 } : Opm.Params).compute_hmax_FromSandSmax
        (3/5) (3/5) 10 :=
  C7_no_hysteresis_gap _ (3/5) 10 (by norm_num [Opm.Params.mkDefault])
    (by norm_num [Opm.Params.mkDefault])

end ClaimC7

section ClaimC8

/-- C8: the VE law's `saturations` operation delegates unconditionally to
the plain `RegularizedBrooksCorey` law: for every plain law, parameter
object, fluid state and incoming container, the outputs coincide exactly,
and the VE height/hysteresis model plays no role. -/
theorem C8_saturations_delegates (tr : Opm.Traits) (plain : Opm.PlainLaw)
    (values : Opm.Container) (p : Opm.Params) (fs : Opm.FluidState) :
    Opm.RegularizedBrooksCoreyVE.saturations tr plain values p fs =
      plain.saturations p fs values :=
  rfl

end ClaimC8

section ClaimC9

/-- C9: the SimpleCO2 operations that are not physically modeled —
`vaporPressure`, `liquidDensity`, `liquidPressure`, `liquidViscosity`,
`liquidInternalEnergy` — signal an explicit "not implemented" error at
every input and never return a value. -/
theorem C9_unimplemented_signal (T pressure density : ℚ) :
    SimpleCO2.vaporPressure T =
      Except.error "NotImplemented: vaporPressure of simple CO2" ∧
    SimpleCO2.liquidDensity T pressure =
      Except.error "NotImplemented: liquidDensity of simple CO2" ∧
    SimpleCO2.liquidPressure T density =
      Except.error "NotImplemented: liquidPressure for simple CO2" ∧
    SimpleCO2.liquidViscosity T pressure =
      Except.error "NotImplemented: liquidViscosity of simple CO2" ∧
    SimpleCO2.liquidInternalEnergy T pressure =
      Except.error "NotImplemented: liquidInternalEnergy of simple CO2" ∧
    (SimpleCO2.vaporPressure T).isOk = false ∧
    (SimpleCO2.liquidDensity T pressure).isOk = false ∧
    (SimpleCO2.liquidPressure T density).isOk = false ∧
    (SimpleCO2.liquidViscosity T pressure).isOk = false ∧
    (SimpleCO2.liquidInternalEnergy T pressure).isOk = false :=
  ⟨rfl, rfl, rfl, rfl, rfl, rfl, rfl, rfl, rfl, rfl⟩

end ClaimC9

section ClaimC10

/-- C10: for every phase index that is neither the wetting nor the
non-wetting index, `setResidualSaturation` leaves the parameter object
(in particular both stored residual saturations) unchanged and
`getResidualSaturation` returns 0; neither operation consults the
finalized flag (their results are the same for any value of the flag, and
both are plain values, unlike the finalize-gated getters). -/
theorem C10_other_phase_frame (tr : Opm.Traits) (p : Opm.Params)
    (phaseIdx : ℤ) (value : ℚ) (b : Bool)
    (hw : phaseIdx ≠ tr.wettingPhaseIdx)
    (hn : phaseIdx ≠ tr.nonWettingPhaseIdx) :
    Opm.Params.setResidualSaturation tr p phaseIdx value = p ∧
    (Opm.Params.setResidualSaturation tr p phaseIdx value).srw = p.srw ∧
    (Opm.Params.setResidualSaturation tr p phaseIdx value).srn = p.srn ∧
    Opm.Params.getResidualSaturation tr p phaseIdx = 0 ∧
    Opm.Params.setResidualSaturation tr { p with finalized := b } phaseIdx value =
      { p with finalized := b } ∧
    Opm.Params.getResidualSaturation tr { p with finalized := b } phaseIdx = 0 := by
  unfold Opm.Params.setResidualSaturation Opm.Params.getResidualSaturation
  simp [if_neg hw, if_neg hn]

/-- Witness for C10: standard two-phase indices 0 and 1, foreign index 2. -/
theorem C10_witness :
    Opm.Params.setResidualSaturation ⟨0, 1⟩ (Opm.Params.mkDefault 1 2) 2 (7/10) =
      Opm.Params.mkDefault 1 2 ∧
    (Opm.Params.setResidualSaturation ⟨0, 1⟩ (Opm.Params.mkDefault 1 2) 2
        (7/10)).srw = (Opm.Params.mkDefault 1 2).srw ∧
    (Opm.Params.setResidualSaturation ⟨0, 1⟩ (Opm.Params.mkDefault 1 2) 2
        (7/10)).srn = (Opm.Params.mkDefault 1 2).srn ∧
    Opm.Params.getResidualSaturation ⟨0, 1⟩ (Opm.Params.mkDefault 1 2) 2 = 0 ∧
    Opm.Params.setResidualSaturation ⟨0, 1⟩
        { Opm.Params.mkDefault 1 2 with finalized := true } 2 (7/10) =
      { Opm.Params.mkDefault 1 2 with finalized := true } ∧
    Opm.Params.getResidualSaturation ⟨0, 1⟩
        { Opm.Params.mkDefault 1 2 with finalized := true } 2 = 0 :=
  C10_other_phase_frame ⟨0, 1⟩ (Opm.Params.mkDefault 1 2) 2 (7/10) true
    (by decide) (by decide)

end ClaimC10

section ClaimC1

/-- Finalized parameters with `Srw = 0`, `Srn = 1/2` (a legal object:
`Srw + Srn < 1`), used to exhibit a fluid state whose interface height is
negative. -/
def pNegH : Opm.Params :=
  { Opm.Params.mkDefault 1 1 with srn := 1/2, finalized := true }

/-- Fluid state with `S = 0.1`, `Smax = 0.9`: far into imbibition, the
height formula of `pNegH` evaluates negative. -/
def fsNegH : Opm.FluidState :=
  { saturation := fun _ => 1/10
    density := fun i => if i = 0 then 1000 else 700
    viscosity := fun _ => 1
    getSmax := 9/10 }

/-- C1 (counterexample): with the finalized parameter object `pNegH` and
the fluid state `fsNegH` (column height 1), the interface height is
`h = -7/10 < 0`, so the non-wetting capillary-pressure entry is negative
although `density_w - density_n = 300 > 0`: the claimed sign agreement
fails.  The claim as stated, quantified over every fluid state, is
therefore false. -/
theorem C1_counterexample :
    pNegH.finalized = true ∧
    0 < fsNegH.density 0 - fsNegH.density 1 ∧
    Opm.RegularizedBrooksCoreyVE.capillaryPressures tr01 idPlain 1
        zeroContainer pNegH fsNegH 1 < 0 := by
  refine ⟨rfl, by norm_num [fsNegH], ?_⟩
  norm_num [Opm.RegularizedBrooksCoreyVE.capillaryPressures, tr01, idPlain,
    zeroContainer, pNegH, fsNegH, Opm.Params.mkDefault,
    Opm.Params.compute_h_FromSandSmax]

/-- C1 (amended): for every finalized parameter object and fluid state the
VE `capillaryPressures` operation (with the column height `H` supplied,
which the source call omits) computes the plain-law baseline, then
overwrites the wetting entry with 0 and the non-wetting entry with
`(density_w - density_n) * 9.80665 * h`; whenever the interface height `h`
is positive, the sign of the non-wetting entry matches the sign of
`(density_w - density_n)`. -/
theorem C1_amended (tr : Opm.Traits) (plain : Opm.PlainLaw) (H : ℚ)
    (values : Opm.Container) (p : Opm.Params) (fs : Opm.FluidState)
    (hfin : p.finalized = true)
    (hne : tr.wettingPhaseIdx ≠ tr.nonWettingPhaseIdx) :
    Opm.RegularizedBrooksCoreyVE.capillaryPressures tr plain H values p fs
        tr.wettingPhaseIdx = 0 ∧
    Opm.RegularizedBrooksCoreyVE.capillaryPressures tr plain H values p fs
        tr.nonWettingPhaseIdx =
      (fs.density tr.wettingPhaseIdx - fs.density tr.nonWettingPhaseIdx) *
        (9.80665 : ℚ) *
        p.compute_h_FromSandSmax (fs.saturation tr.nonWettingPhaseIdx)
          fs.getSmax H ∧
    (0 < p.compute_h_FromSandSmax (fs.saturation tr.nonWettingPhaseIdx)
          fs.getSmax H →
      ((0 < fs.density tr.wettingPhaseIdx - fs.density tr.nonWettingPhaseIdx ↔
          0 < Opm.RegularizedBrooksCoreyVE.capillaryPressures tr plain H values
                p fs tr.nonWettingPhaseIdx) ∧
        (fs.density tr.wettingPhaseIdx - fs.density tr.nonWettingPhaseIdx < 0 ↔
          Opm.RegularizedBrooksCoreyVE.capillaryPressures tr plain H values
              p fs tr.nonWettingPhaseIdx < 0))) := by
  have hw :
      Opm.RegularizedBrooksCoreyVE.capillaryPressures tr plain H values p fs
        tr.wettingPhaseIdx = 0 := by
    simp [Opm.RegularizedBrooksCoreyVE.capillaryPressures, hne]
  have hn :
      Opm.RegularizedBrooksCoreyVE.capillaryPressures tr plain H values p fs
        tr.nonWettingPhaseIdx =
      (fs.density tr.wettingPhaseIdx - fs.density tr.nonWettingPhaseIdx) *
        (9.80665 : ℚ) *
        p.compute_h_FromSandSmax (fs.saturation tr.nonWettingPhaseIdx)
          fs.getSmax H := by
    simp [Opm.RegularizedBrooksCoreyVE.capillaryPressures]
  refine ⟨hw, hn, fun hh => ?_⟩
  rw [hn]
  set d := fs.density tr.wettingPhaseIdx - fs.density tr.nonWettingPhaseIdx
    with hd
  have hgh : (0 : ℚ) < 9.80665 *
      p.compute_h_FromSandSmax (fs.saturation tr.nonWettingPhaseIdx)
        fs.getSmax H := by
    have : (0 : ℚ) < 9.80665 := by norm_num
    exact mul_pos this hh
  have hassoc : d * (9.80665 : ℚ) *
      p.compute_h_FromSandSmax (fs.saturation tr.nonWettingPhaseIdx)
        fs.getSmax H =
      d * ((9.80665 : ℚ) *
        p.compute_h_FromSandSmax (fs.saturation tr.nonWettingPhaseIdx)
          fs.getSmax H) := by ring
  rw [hassoc]
  constructor
  · constructor
    · intro hdp
      exact mul_pos hdp hgh
    · intro hprod
      rcases mul_pos_iff.mp hprod with ⟨h1, _⟩ | ⟨_, h2⟩
      · exact h1
      · linarith
  · constructor
    · intro hdn
      exact mul_neg_of_neg_of_pos hdn hgh
    · intro hprod
      rcases mul_neg_iff.mp hprod with ⟨_, h2⟩ | ⟨h1, _⟩
      · linarith
      · exact h1

/-- Witness for the amended C1: the spec's concrete scenario
(`sampleParams`, `sampleFluidState`, `H = 10`), where `h = 4200/765 > 0`. -/
theorem C1_amended_witness :
    Opm.RegularizedBrooksCoreyVE.capillaryPressures tr01 idPlain 10
        zeroContainer sampleParams sampleFluidState
        tr01.wettingPhaseIdx = 0 ∧
    Opm.RegularizedBrooksCoreyVE.capillaryPressures tr01 idPlain 10
        zeroContainer sampleParams sampleFluidState
        tr01.nonWettingPhaseIdx =
      (sampleFluidState.density tr01.wettingPhaseIdx -
          sampleFluidState.density tr01.nonWettingPhaseIdx) *
        (9.80665 : ℚ) *
        sampleParams.compute_h_FromSandSmax
          (sampleFluidState.saturation tr01.nonWettingPhaseIdx)
          sampleFluidState.getSmax 10 ∧
    (0 < sampleParams.compute_h_FromSandSmax
          (sampleFluidState.saturation tr01.nonWettingPhaseIdx)
          sampleFluidState.getSmax 10 →
      ((0 < sampleFluidState.density tr01.wettingPhaseIdx -
            sampleFluidState.density tr01.nonWettingPhaseIdx ↔
          0 < Opm.RegularizedBrooksCoreyVE.capillaryPressures tr01 idPlain 10
                zeroContainer sampleParams sampleFluidState
                tr01.nonWettingPhaseIdx) ∧
        (sampleFluidState.density tr01.wettingPhaseIdx -
            sampleFluidState.density tr01.nonWettingPhaseIdx < 0 ↔
          Opm.RegularizedBrooksCoreyVE.capillaryPressures tr01 idPlain 10
              zeroContainer sampleParams sampleFluidState
              tr01.nonWettingPhaseIdx < 0))) :=
  C1_amended tr01 idPlain 10 zeroContainer sampleParams sampleFluidState
    (by norm_num [sampleParams]) (by decide)

end ClaimC1

section ClaimC2

/-- Parameters with `Srw = 1/2`, `Srn = 3/10`: legal by the claim's side
conditions (`Srw + Srn = 4/5 < 1`), yet they break the claimed height
bounds. -/
def pC2 : Opm.Params :=
  { Opm.Params.mkDefault 1 1 with srw := 1/2, srn := 3/10 }

/-- C2 (counterexample): `pC2` satisfies every hypothesis of the claim
(`Srw, Srn` in `[0,1]`, `Srw + Srn < 1`, `lambda > 0`, `entryPressure > 0`)
and `S = 0 ≤ Smax = 9/10 ≤ 1`, `H = 1 > 0`, yet `h = -27/10 < 0` and
`hmax = 9/5 > H`: both claimed bounds fail. -/
theorem C2_counterexample :
    (0 ≤ pC2.srw ∧ pC2.srw ≤ 1 ∧ 0 ≤ pC2.srn ∧ pC2.srn ≤ 1 ∧
      pC2.srw + pC2.srn < 1 ∧ 0 < pC2.lambda ∧ 0 < pC2.entryPressure) ∧
    ((0 : ℚ) ≤ 0 ∧ (0 : ℚ) ≤ 9/10 ∧ (9/10 : ℚ) ≤ 1 ∧ (0 : ℚ) < 1) ∧
    pC2.compute_h_FromSandSmax 0 (9/10) 1 < 0 ∧
    1 < pC2.compute_hmax_FromSandSmax 0 (9/10) 1 := by
  refine ⟨?_, ?_, ?_, ?_⟩ <;>
    norm_num [pC2, Opm.Params.mkDefault, Opm.Params.compute_h_FromSandSmax,
      Opm.Params.compute_hmax_FromSandSmax]

/-- C2 (amended): the claimed chain `0 ≤ h ≤ hmax ≤ H` holds once the two
physically motivated constraints the counterexample forces are added:
`Smax ≤ 1 - Srw` (the historical maximum cannot exceed the mobile range)
and `Smax * Srn ≤ S * (1 - Srw)` (the current saturation is at least the
trapped residual part). -/
theorem C2_amended (p : Opm.Params) (S Smax H : ℚ)
    (hsrw0 : 0 ≤ p.srw) (hsrw1 : p.srw ≤ 1) (hsrn0 : 0 ≤ p.srn)
    (hsrn1 : p.srn ≤ 1) (hsum : p.srw + p.srn < 1)
    (hlam : 0 < p.lambda) (hpe : 0 < p.entryPressure)
    (hS0 : 0 ≤ S) (hSSmax : S ≤ Smax) (hSmax1 : Smax ≤ 1) (hH : 0 < H)
    (hcap : Smax ≤ 1 - p.srw) (htrap : Smax * p.srn ≤ S * (1 - p.srw)) :
    0 ≤ p.compute_h_FromSandSmax S Smax H ∧
    p.compute_h_FromSandSmax S Smax H ≤
      p.compute_hmax_FromSandSmax S Smax H ∧
    p.compute_hmax_FromSandSmax S Smax H ≤ H := by
  have hw : (0 : ℚ) < 1 - p.srw := by linarith
  have hwn : (0 : ℚ) < 1 - p.srw - p.srn := by linarith
  unfold Opm.Params.compute_h_FromSandSmax Opm.Params.compute_hmax_FromSandSmax
  refine ⟨?_, ?_, ?_⟩
  · apply div_nonneg
    · have hnum : (0 : ℚ) ≤ S * (1 - p.srw) - Smax * p.srn := by linarith
      nlinarith
    · exact le_of_lt (mul_pos hw hwn)
  · rw [div_le_div_iff₀ (mul_pos hw hwn) hw]
    nlinarith [mul_nonneg (mul_nonneg (le_of_lt hH)
      (mul_nonneg (le_of_lt hw) (le_of_lt hw))) (sub_nonneg.mpr hSSmax)]
  · rw [div_le_iff₀ hw]
    exact mul_le_mul_of_nonneg_left hcap (le_of_lt hH)

/-- Witness for the amended C2: the spec's concrete scenario
(`Srw = 0.1`, `Srn = 0.05`, `S = 0.5`, `Smax = 0.6`, `H = 10`). -/
theorem C2_amended_witness :
    0 ≤ sampleParams.compute_h_FromSandSmax (1/2) (3/5) 10 ∧
    sampleParams.compute_h_FromSandSmax (1/2) (3/5) 10 ≤
      sampleParams.compute_hmax_FromSandSmax (1/2) (3/5) 10 ∧
    sampleParams.compute_hmax_FromSandSmax (1/2) (3/5) 10 ≤ 10 :=
  C2_amended sampleParams (1/2) (3/5) 10
    (by norm_num [sampleParams, Opm.Params.mkDefault])
    (by norm_num [sampleParams, Opm.Params.mkDefault])
    (by norm_num [sampleParams, Opm.Params.mkDefault])
    (by norm_num [sampleParams, Opm.Params.mkDefault])
    (by norm_num [sampleParams, Opm.Params.mkDefault])
    (by norm_num [sampleParams, Opm.Params.mkDefault])
    (by norm_num [sampleParams, Opm.Params.mkDefault])
    (by norm_num) (by norm_num) (by norm_num) (by norm_num)
    (by norm_num [sampleParams, Opm.Params.mkDefault])
    (by norm_num [sampleParams, Opm.Params.mkDefault])

end ClaimC2

section ClaimC3

/-- C3 (intended semantics): the VE `relativePermeabilities` operation,
with the column height `H` supplied — the source call sites omit the
required `H` argument of all four parameter-object helpers, so the C++
template cannot be instantiated — writes `krnEndPoint * (h/H)` into the
non-wetting entry and `(H - hmax)/H + viscosity_w * krwEndPoint *
((hmax - h)/H)` into the wetting entry, with `h`, `hmax` computed from
`S = fs.saturation(nonWettingPhaseIdx)` and `Smax = fs.getSmax()`. -/
theorem C3_relperm_formulas (tr : Opm.Traits) (H : ℚ)
    (values : Opm.Container) (p : Opm.Params) (fs : Opm.FluidState)
    (hfin : p.finalized = true)
    (hne : tr.wettingPhaseIdx ≠ tr.nonWettingPhaseIdx) :
    Opm.RegularizedBrooksCoreyVE.relativePermeabilities tr H values p fs
        tr.nonWettingPhaseIdx =
      p.krnEndPoint_ *
        (p.compute_h_FromSandSmax (fs.saturation tr.nonWettingPhaseIdx)
            fs.getSmax H / H) ∧
    Opm.RegularizedBrooksCoreyVE.relativePermeabilities tr H values p fs
        tr.wettingPhaseIdx =
      (H - p.compute_hmax_FromSandSmax (fs.saturation tr.nonWettingPhaseIdx)
            fs.getSmax H) / H +
        fs.viscosity tr.wettingPhaseIdx * p.krwEndPoint_ *
          ((p.compute_hmax_FromSandSmax (fs.saturation tr.nonWettingPhaseIdx)
              fs.getSmax H -
            p.compute_h_FromSandSmax (fs.saturation tr.nonWettingPhaseIdx)
              fs.getSmax H) / H) := by
  constructor
  · simp [Opm.RegularizedBrooksCoreyVE.relativePermeabilities,
      Opm.Params.computeNonWettingPhaseRelPerm]
  · simp [Opm.RegularizedBrooksCoreyVE.relativePermeabilities,
      Opm.Params.computeWettingPhaseRelPerm, hne]

/-- Witness for C3 at the spec's concrete scenario. -/
theorem C3_relperm_witness :
    Opm.RegularizedBrooksCoreyVE.relativePermeabilities tr01 10
        zeroContainer sampleParams sampleFluidState
        tr01.nonWettingPhaseIdx =
      sampleParams.krnEndPoint_ *
        (sampleParams.compute_h_FromSandSmax
            (sampleFluidState.saturation tr01.nonWettingPhaseIdx)
            sampleFluidState.getSmax 10 / 10) ∧
    Opm.RegularizedBrooksCoreyVE.relativePermeabilities tr01 10
        zeroContainer sampleParams sampleFluidState
        tr01.wettingPhaseIdx =
      (10 - sampleParams.compute_hmax_FromSandSmax
            (sampleFluidState.saturation tr01.nonWettingPhaseIdx)
            sampleFluidState.getSmax 10) / 10 +
        sampleFluidState.viscosity tr01.wettingPhaseIdx *
            sampleParams.krwEndPoint_ *
          ((sampleParams.compute_hmax_FromSandSmax
              (sampleFluidState.saturation tr01.nonWettingPhaseIdx)
              sampleFluidState.getSmax 10 -
            sampleParams.compute_h_FromSandSmax
              (sampleFluidState.saturation tr01.nonWettingPhaseIdx)
              sampleFluidState.getSmax 10) / 10) :=
  C3_relperm_formulas tr01 10 zeroContainer sampleParams sampleFluidState
    (by norm_num [sampleParams]) (by decide)

end ClaimC3

section ClaimC4

/-- C4 (counterexample): on a default-constructed parameter object the VE
`finalize()` is a no-op, so `krnEndPoint()` still signals the contract
violation after `finalize()` has been called; and `getResidualSaturation`
returns 0 before any finalize call without signalling anything.  Both
directions of the claimed equivalence fail. -/
theorem C4_counterexample :
    Opm.Params.krnEndPoint (Opm.Params.finalize (Opm.Params.mkDefault 1 1)) =
      Except.error Opm.ContractViolation.notFinalized ∧
    Opm.Params.krwEndPoint (Opm.Params.finalize (Opm.Params.mkDefault 1 1)) =
      Except.error Opm.ContractViolation.notFinalized ∧
    (Opm.Params.mkDefault 1 1).finalized = false ∧
    Opm.Params.getResidualSaturation tr01 (Opm.Params.mkDefault 1 1)
      tr01.wettingPhaseIdx = 0 :=
  ⟨rfl, rfl, rfl, rfl⟩

/-- C4 (amended): the gated accessors (`krnEndPoint`, `krwEndPoint` and
the inherited getters) signal a contract violation exactly when the
`finalized` flag is unset; the VE `finalize()` is a no-op that leaves the
object unchanged (in particular it does not set the flag — only the base
finalize, `finalizePlain()`, does, after which each gated accessor returns
the stored value); `getResidualSaturation` consults the flag in no way. -/
theorem C4_amended (p : Opm.Params) (tr : Opm.Traits) (phaseIdx : ℤ)
    (b : Bool) :
    (Opm.Params.krnEndPoint p).isOk = p.finalized ∧
    (Opm.Params.krwEndPoint p).isOk = p.finalized ∧
    (Opm.Params.entryPressureGet p).isOk = p.finalized ∧
    (Opm.Params.lambdaGet p).isOk = p.finalized ∧
    Opm.Params.finalize p = p ∧
    Opm.Params.krnEndPoint (Opm.Params.finalizePlain p) =
      Except.ok p.krnEndPoint_ ∧
    Opm.Params.krwEndPoint (Opm.Params.finalizePlain p) =
      Except.ok p.krwEndPoint_ ∧
    Opm.Params.entryPressureGet (Opm.Params.finalizePlain p) =
      Except.ok p.entryPressure ∧
    Opm.Params.lambdaGet (Opm.Params.finalizePlain p) =
      Except.ok p.lambda ∧
    Opm.Params.getResidualSaturation tr { p with finalized := b } phaseIdx =
      Opm.Params.getResidualSaturation tr p phaseIdx := by
  unfold Opm.Params.krnEndPoint Opm.Params.krwEndPoint
    Opm.Params.entryPressureGet Opm.Params.lambdaGet Opm.Params.checked
    Opm.Params.finalize Opm.Params.finalizePlain
    Opm.Params.getResidualSaturation
  cases hp : p.finalized <;> simp [Except.isOk, Except.toBool]

end ClaimC4
